import Mathlib

/-
Verification of the documentapi `ReplyMerger` component
(src/documentapi/src/vespa/documentapi/messagebus/replymerger.h).

The repository ships only the class declaration; the member-function
bodies live in a translation unit that is not part of the source tree.
The state fields (`_error`, `_ignored`, `_successReply`, `_successIndex`,
`Result::_generatedReply`, `Result::_successIdx`) and the method names
are taken from the header; each body is modelled from the specification
(spec.md sections 4.1 and 4.2) and is marked as such in its doc comment.
-/

namespace Documentapi

/-- Classification of a reply error (spec section 3, ErrorKind): an
ignorable error means the operation target is legitimately absent at the
destination; a substantive error is a genuine failure. -/
inductive ErrorKind where
  | ignorable : ErrorKind
  | substantive : ErrorKind
deriving DecidableEq, Repr

/-- One typed error carried by a reply. The `code` field stands for the
identifying content of the error (error code, message, trace), so that
distinct errors stay distinct when aggregated. -/
structure Error where
  kind : ErrorKind
  code : Nat
deriving DecidableEq, Repr

/-- A reply (external `mbus::Reply`), treated as opaque except for its
error list and a payload standing for its reply-specific payload and
trace data (spec section 3). -/
structure Reply where
  errors : List Error
  payload : Nat
deriving DecidableEq, Repr

/-- `mbus::Reply::hasErrors`: the reply carries at least one error. -/
def Reply.hasErrors (r : Reply) : Bool :=
  !r.errors.isEmpty

/-- Whether an error is classified ignorable (spec section 3). -/
def Error.isIgnorable (e : Error) : Bool :=
  e.kind == ErrorKind.ignorable

/-- Every error in the reply is classified ignorable (spec section 4.1,
policy case 2). -/
def Reply.hasOnlyIgnorableErrors (r : Reply) : Bool :=
  r.errors.all Error.isIgnorable

/-- A reply that carries errors, all of them ignorable. -/
def Reply.isIgnorableOnly (r : Reply) : Bool :=
  r.hasErrors && r.hasOnlyIgnorableErrors

/-- A reply that carries at least one substantive error. -/
def Reply.isSubstantiveBearing (r : Reply) : Bool :=
  r.hasErrors && !r.hasOnlyIgnorableErrors

/-- `ReplyMerger::Result` (header lines 12-27): `_generatedReply` is the
owned synthesized reply (`std::unique_ptr`, null modelled as `none`);
`_successIdx` is the recorded success index. The header stores the index
as `uint32_t`; spec section 4.1 (empty case) says the unsuccessful states
carry an index sentinel, which is modelled as `none`. -/
structure Result where
  _generatedReply : Option Reply
  _successIdx : Option Nat
deriving DecidableEq, Repr

/-- Modelled from the spec (section 4.2): true iff this Result owns a
synthesized reply. -/
def Result.hasGeneratedReply (res : Result) : Bool :=
  res._generatedReply.isSome

/-- Modelled from the spec (section 4.2): true iff a success index is
present. -/
def Result.isSuccessful (res : Result) : Bool :=
  res._successIdx.isSome

/-- Modelled from the spec (sections 4.2 and 7): transfers ownership of
the synthesized reply out, leaving the owning pointer null. Calling it
when `hasGeneratedReply()` is false is a contract violation that fails
loudly; the assertion failure is modelled as `none`. On success it
returns the released reply together with the post-release Result. -/
def Result.releaseGeneratedReply (res : Result) : Option (Reply × Result) :=
  match res._generatedReply with
  | some r => some (r, { res with _generatedReply := none })
  | none => none

/-- Modelled from the spec (sections 4.2 and 7): valid only when
`isSuccessful()` is true; querying the index of an unsuccessful Result
is a contract violation that fails loudly, modelled as `none`. -/
def Result.getSuccessfulReplyIndex (res : Result) : Option Nat :=
  match res._successIdx with
  | some i => some i
  | none => none

/-- Modelled from the spec: `Result(Result&&)` (header line 22) with the
standard move semantics the spec requires (section 4.2, move-only value;
section 9, move-once-out). The first component is the freshly
move-constructed Result, the second is the moved-from source, whose
owning pointer is left null while the plain index field is copied. -/
def Result.move (res : Result) : Result × Result :=
  (⟨res._generatedReply, res._successIdx⟩, ⟨none, res._successIdx⟩)

/-- `ReplyMerger` state (header lines 29-32): `_error` is the owned
aggregated substantive-error reply, `_ignored` the owned representative
ignorable-only reply, `_successReply` the non-owning pointer to the best
successful reply seen (null modelled as `none`), `_successIndex` its
index. -/
structure ReplyMerger where
  _error : Option Reply
  _ignored : Option Reply
  _successReply : Option Reply
  _successIndex : Nat
deriving DecidableEq, Repr

/-- Modelled from the spec: `ReplyMerger::ReplyMerger()` starts with no
aggregated error, no ignored reply and no recorded success. -/
def ReplyMerger.init : ReplyMerger :=
  { _error := none, _ignored := none, _successReply := none, _successIndex := 0 }

/-- Modelled from the spec (section 4.1): at least one success was
recorded, i.e. `_successReply` is non-null. -/
def ReplyMerger.successfullyMergedAtLeastOneReply (m : ReplyMerger) : Bool :=
  m._successReply.isSome

/-- Modelled from the spec (section 4.1, tie-break policy): first-wins,
a later success is never judged better than the recorded one, so the
comparison hook constantly answers false. -/
def ReplyMerger.replyIsBetterThanCurrent (_m : ReplyMerger) (_r : Reply) : Bool :=
  false

/-- Modelled from the spec (section 4.1, case 1): record the reply's
index as the new best success and point `_successReply` at the reply. -/
def ReplyMerger.setCurrentBestReply (m : ReplyMerger) (idx : Nat) (r : Reply) : ReplyMerger :=
  { m with _successReply := some r, _successIndex := idx }

/-- Modelled from the spec (section 4.1, case 1): if no success has been
recorded yet, or the new reply is judged better than the current best,
record it. -/
def ReplyMerger.updateStateWithSuccessfulReply (m : ReplyMerger) (idx : Nat) (r : Reply) :
    ReplyMerger :=
  if !m.successfullyMergedAtLeastOneReply || m.replyIsBetterThanCurrent r then
    m.setCurrentBestReply idx r
  else
    m

/-- Modelled from the spec (section 4.1, case 2): keep the first
ignorable-only reply encountered; later ones do not replace it. -/
def ReplyMerger.handleReplyWithOnlyIgnoredErrors (m : ReplyMerger) (r : Reply) : ReplyMerger :=
  match m._ignored with
  | none => { m with _ignored := some r }
  | some _ => m

/-- Modelled from the spec (section 4.1, case 3): merge all of the
reply's errors, substantive and accompanying ignorable ones alike, into
`_error`; initialize `_error` from this reply (clone of its error list
and identifying metadata) when absent, otherwise append this reply's
errors to the existing aggregated list. -/
def ReplyMerger.mergeAllReplyErrors (m : ReplyMerger) (r : Reply) : ReplyMerger :=
  match m._error with
  | none => { m with _error := some { errors := r.errors, payload := r.payload } }
  | some agg => { m with _error := some { agg with errors := agg.errors ++ r.errors } }

/-- Modelled from the spec (section 4.1, policy): dispatch an incoming
reply to the success path when it has no errors, to the ignored path
when all its errors are ignorable, and to the aggregation path
otherwise. -/
def ReplyMerger.merge (m : ReplyMerger) (idx : Nat) (r : Reply) : ReplyMerger :=
  if r.hasErrors then
    if r.hasOnlyIgnorableErrors then
      m.handleReplyWithOnlyIgnoredErrors r
    else
      m.mergeAllReplyErrors r
  else
    m.updateStateWithSuccessfulReply idx r

/-- Modelled from the spec (section 4.1): an error Result must be
returned when an aggregated or an ignored error reply exists. -/
def ReplyMerger.shouldReturnErrorReply (m : ReplyMerger) : Bool :=
  m._error.isSome || m._ignored.isSome

/-- Modelled from the spec (section 4.1): the generated error reply is
the aggregated substantive error when present, otherwise the retained
ignorable-only reply. -/
def ReplyMerger.releaseGeneratedErrorReply (m : ReplyMerger) : Option Reply :=
  match m._error with
  | some e => some e
  | none => m._ignored

/-- Modelled from the spec (section 4.1, empty case): a terminal neutral
Result with no success index and no generated reply. -/
def ReplyMerger.createEmptyReplyResult (_m : ReplyMerger) : Result :=
  { _generatedReply := none, _successIdx := none }

/-- Modelled from the spec (section 4.1, finalize): success wins over
errors; otherwise a generated error reply when one exists; otherwise the
empty Result. -/
def ReplyMerger.mergedReply (m : ReplyMerger) : Result :=
  if m.successfullyMergedAtLeastOneReply then
    { _generatedReply := none, _successIdx := some m._successIndex }
  else if m.shouldReturnErrorReply then
    { _generatedReply := m.releaseGeneratedErrorReply, _successIdx := none }
  else
    m.createEmptyReplyResult

/-- Feed a sequence of (index, reply) pairs into a merger state, in call
order. -/
def ReplyMerger.mergeAll (m : ReplyMerger) (ms : List (Nat × Reply)) : ReplyMerger :=
  ms.foldl (fun acc p => acc.merge p.1 p.2) m

/-- Run a fresh merger over a whole call sequence (spec section 3,
lifecycle: one Merger per logical operation). -/
def runMerger (ms : List (Nat × Reply)) : ReplyMerger :=
  ReplyMerger.init.mergeAll ms

/-- Error list carried by an optional reply, empty when absent. -/
def optErrors (o : Option Reply) : List Error :=
  match o with
  | none => []
  | some r => r.errors

/-- Concatenation, in call order, of the complete error lists of every
substantive-bearing reply of the sequence (spec section 4.1, case 3). -/
def substantiveErrorConcat (ms : List (Nat × Reply)) : List Error :=
  ((ms.filter (fun p => p.2.isSubstantiveBearing)).map (fun p => p.2.errors)).flatten

/-- A successful sample reply. -/
def okReply : Reply := { errors := [], payload := 0 }

/-- A sample substantive error. -/
def subError : Error := { kind := ErrorKind.substantive, code := 11 }

/-- A sample ignorable error. -/
def ignError : Error := { kind := ErrorKind.ignorable, code := 22 }

/-- A sample reply carrying a substantive error and an accompanying
ignorable one. -/
def subReply : Reply := { errors := [subError, ignError], payload := 1 }

/-- A sample reply whose errors are all ignorable. -/
def ignReply : Reply := { errors := [ignError], payload := 2 }

/-- A second sample ignorable-only reply, distinguishable from the
first. -/
def ignReply2 : Reply := { errors := [ignError, ignError], payload := 3 }

/-- The Results that can exist in client code: `Result`'s value
constructor is private and `ReplyMerger` is the only friend (header
lines 12-21), so every Result is produced by `mergedReply()` on some
merger state reached from a fresh merger by a merge sequence, or is
move-constructed from such a value (either the move target or the
moved-from source). -/
inductive Result.Produced : Result → Prop where
  | ofMergedReply (ms : List (Nat × Reply)) : Result.Produced (runMerger ms).mergedReply
  | ofMoveTarget (res : Result) : Result.Produced res → Result.Produced (Result.move res).1
  | ofMoveSource (res : Result) : Result.Produced res → Result.Produced (Result.move res).2

theorem mergeAll_nil (m : ReplyMerger) : m.mergeAll [] = m := rfl

theorem mergeAll_cons (m : ReplyMerger) (p : Nat × Reply) (ps : List (Nat × Reply)) :
    m.mergeAll (p :: ps) = (m.merge p.1 p.2).mergeAll ps := rfl

/-- A reply that carries errors never touches the success fields. -/
theorem merge_err_success_fields (m : ReplyMerger) (idx : Nat) (r : Reply)
    (h : r.hasErrors = true) :
    (m.merge idx r)._successReply = m._successReply ∧
      (m.merge idx r)._successIndex = m._successIndex := by
  unfold ReplyMerger.merge
  rw [h]
  simp only [if_true]
  split
  · unfold ReplyMerger.handleReplyWithOnlyIgnoredErrors
    cases m._ignored <;> simp
  · unfold ReplyMerger.mergeAllReplyErrors
    cases m._error <;> simp

/-- A successful reply merged while no success is recorded yet updates
exactly the two success fields. -/
theorem merge_ok_records (m : ReplyMerger) (idx : Nat) (r : Reply)
    (h : r.hasErrors = false) (hs : m._successReply = none) :
    m.merge idx r = { m with _successReply := some r, _successIndex := idx } := by
  unfold ReplyMerger.merge
  rw [h]
  simp only [Bool.false_eq_true, if_false]
  unfold ReplyMerger.updateStateWithSuccessfulReply ReplyMerger.successfullyMergedAtLeastOneReply
    ReplyMerger.replyIsBetterThanCurrent ReplyMerger.setCurrentBestReply
  rw [hs]
  simp

/-- A successful reply merged after a success is recorded leaves the
state unchanged (first-wins tie-break). -/
theorem merge_ok_keeps (m : ReplyMerger) (idx : Nat) (r : Reply) (s : Reply)
    (h : r.hasErrors = false) (hs : m._successReply = some s) :
    m.merge idx r = m := by
  unfold ReplyMerger.merge
  rw [h]
  simp only [Bool.false_eq_true, if_false]
  unfold ReplyMerger.updateStateWithSuccessfulReply ReplyMerger.successfullyMergedAtLeastOneReply
    ReplyMerger.replyIsBetterThanCurrent
  rw [hs]
  simp

/-- A successful reply never touches the error and ignored fields. -/
theorem merge_ok_err_fields (m : ReplyMerger) (idx : Nat) (r : Reply)
    (h : r.hasErrors = false) :
    (m.merge idx r)._error = m._error ∧ (m.merge idx r)._ignored = m._ignored := by
  cases hs : m._successReply with
  | none => rw [merge_ok_records m idx r h hs]; exact ⟨rfl, rfl⟩
  | some s => rw [merge_ok_keeps m idx r s h hs]; exact ⟨rfl, rfl⟩

/-- Effect of one merge call on the aggregated error list. -/
theorem merge_optErrors (m : ReplyMerger) (idx : Nat) (r : Reply) :
    optErrors (m.merge idx r)._error =
      optErrors m._error ++ (if r.isSubstantiveBearing then r.errors else []) := by
  cases he : r.hasErrors with
  | false =>
    rw [(merge_ok_err_fields m idx r he).1]
    simp [Reply.isSubstantiveBearing, he]
  | true =>
    cases hig : r.hasOnlyIgnorableErrors with
    | true =>
      unfold ReplyMerger.merge
      rw [he, hig]
      simp only [if_true]
      unfold ReplyMerger.handleReplyWithOnlyIgnoredErrors
      cases m._ignored <;> simp [Reply.isSubstantiveBearing, he, hig]
    | false =>
      unfold ReplyMerger.merge
      rw [he, hig]
      simp only [Bool.false_eq_true, if_false, if_true]
      unfold ReplyMerger.mergeAllReplyErrors
      cases hme : m._error <;>
        simp [Reply.isSubstantiveBearing, he, hig, optErrors, hme]

/-- Effect of one merge call on the presence of an aggregated error. -/
theorem merge_error_isSome (m : ReplyMerger) (idx : Nat) (r : Reply) :
    (m.merge idx r)._error.isSome = (m._error.isSome || r.isSubstantiveBearing) := by
  cases he : r.hasErrors with
  | false =>
    rw [(merge_ok_err_fields m idx r he).1]
    simp [Reply.isSubstantiveBearing, he]
  | true =>
    cases hig : r.hasOnlyIgnorableErrors with
    | true =>
      unfold ReplyMerger.merge
      rw [he, hig]
      simp only [if_true]
      unfold ReplyMerger.handleReplyWithOnlyIgnoredErrors
      cases m._ignored <;> simp [Reply.isSubstantiveBearing, he, hig]
    | false =>
      unfold ReplyMerger.merge
      rw [he, hig]
      simp only [Bool.false_eq_true, if_false, if_true]
      unfold ReplyMerger.mergeAllReplyErrors
      cases hme : m._error <;> simp [Reply.isSubstantiveBearing, he, hig, hme]

/-- Effect of one merge call on the retained ignorable-only reply. -/
theorem merge_ignored_field (m : ReplyMerger) (idx : Nat) (r : Reply) :
    (m.merge idx r)._ignored =
      if r.isIgnorableOnly then
        match m._ignored with
        | none => some r
        | some x => some x
      else m._ignored := by
  cases he : r.hasErrors with
  | false =>
    rw [(merge_ok_err_fields m idx r he).2]
    simp [Reply.isIgnorableOnly, he]
  | true =>
    cases hig : r.hasOnlyIgnorableErrors with
    | true =>
      unfold ReplyMerger.merge
      rw [he, hig]
      simp only [if_true]
      unfold ReplyMerger.handleReplyWithOnlyIgnoredErrors
      cases hmi : m._ignored <;> simp [Reply.isIgnorableOnly, he, hig, hmi]
    | false =>
      unfold ReplyMerger.merge
      rw [he, hig]
      simp only [Bool.false_eq_true, if_false, if_true]
      unfold ReplyMerger.mergeAllReplyErrors
      cases hme : m._error <;> simp [Reply.isIgnorableOnly, he, hig, hme]

/-- Once a success is recorded, a whole sequence of further merges
leaves both success fields unchanged. -/
theorem mergeAll_success_some (ms : List (Nat × Reply)) :
    ∀ (m : ReplyMerger) (s : Reply), m._successReply = some s →
      (m.mergeAll ms)._successReply = some s ∧
        (m.mergeAll ms)._successIndex = m._successIndex := by
  induction ms with
  | nil => intro m s h; rw [mergeAll_nil]; exact ⟨h, rfl⟩
  | cons p ps ih =>
    intro m s h
    rw [mergeAll_cons]
    cases he : p.2.hasErrors with
    | true =>
      obtain ⟨h1, h2⟩ := merge_err_success_fields m p.1 p.2 he
      obtain ⟨h3, h4⟩ := ih (m.merge p.1 p.2) s (h1.trans h)
      exact ⟨h3, h4.trans h2⟩
    | false =>
      rw [merge_ok_keeps m p.1 p.2 s he h]
      exact ih m s h

/-- Starting from a state with no recorded success, the success fields
after a sequence of merges are determined by the first success-bearing
call of the sequence. -/
theorem mergeAll_success_none (ms : List (Nat × Reply)) :
    ∀ m : ReplyMerger, m._successReply = none →
      (m.mergeAll ms)._successReply =
          (ms.find? (fun p => !p.2.hasErrors)).map Prod.snd ∧
        (m.mergeAll ms)._successIndex =
          (match ms.find? (fun p => !p.2.hasErrors) with
           | some p => p.1
           | none => m._successIndex) := by
  induction ms with
  | nil =>
    intro m h
    rw [mergeAll_nil]
    exact ⟨by simpa using h, rfl⟩
  | cons p ps ih =>
    intro m h
    rw [mergeAll_cons]
    cases he : p.2.hasErrors with
    | false =>
      rw [merge_ok_records m p.1 p.2 he h]
      obtain ⟨h3, h4⟩ := mergeAll_success_some ps
        { m with _successReply := some p.2, _successIndex := p.1 } p.2 rfl
      rw [List.find?_cons_of_pos _ (by simp [he])]
      exact ⟨h3, h4⟩
    | true =>
      obtain ⟨h1, h2⟩ := merge_err_success_fields m p.1 p.2 he
      obtain ⟨h3, h4⟩ := ih (m.merge p.1 p.2) (h1.trans h)
      rw [List.find?_cons_of_neg _ (by simp [he])]
      refine ⟨h3, ?_⟩
      rw [h4]
      cases hf : ps.find? (fun p => !p.2.hasErrors) <;> simp [hf, h2]

/-- The substantive-error concatenation unfolds one call at a time. -/
theorem substantiveErrorConcat_cons (p : Nat × Reply) (ps : List (Nat × Reply)) :
    substantiveErrorConcat (p :: ps) =
      (if p.2.isSubstantiveBearing then p.2.errors else []) ++ substantiveErrorConcat ps := by
  unfold substantiveErrorConcat
  cases hs : p.2.isSubstantiveBearing <;> simp [List.filter_cons, hs]

/-- After a sequence of merges the aggregated error list is the starting
list followed by the errors of every substantive-bearing reply, in call
order. -/
theorem mergeAll_optErrors (ms : List (Nat × Reply)) :
    ∀ m : ReplyMerger,
      optErrors (m.mergeAll ms)._error = optErrors m._error ++ substantiveErrorConcat ms := by
  induction ms with
  | nil => intro m; rw [mergeAll_nil]; simp [substantiveErrorConcat]
  | cons p ps ih =>
    intro m
    rw [mergeAll_cons, ih, merge_optErrors, substantiveErrorConcat_cons, List.append_assoc]

/-- An aggregated error exists after a sequence of merges iff one
existed before or some call carried a substantive error. -/
theorem mergeAll_error_isSome (ms : List (Nat × Reply)) :
    ∀ m : ReplyMerger,
      (m.mergeAll ms)._error.isSome =
        (m._error.isSome || ms.any (fun p => p.2.isSubstantiveBearing)) := by
  induction ms with
  | nil => intro m; rw [mergeAll_nil]; simp
  | cons p ps ih =>
    intro m
    rw [mergeAll_cons, ih, merge_error_isSome]
    simp [Bool.or_assoc]

/-- A retained ignorable-only reply is never replaced by later calls. -/
theorem mergeAll_ignored_some (ms : List (Nat × Reply)) :
    ∀ (m : ReplyMerger) (x : Reply), m._ignored = some x →
      (m.mergeAll ms)._ignored = some x := by
  induction ms with
  | nil => intro m x h; rw [mergeAll_nil]; exact h
  | cons p ps ih =>
    intro m x h
    rw [mergeAll_cons]
    apply ih
    rw [merge_ignored_field, h]
    split <;> rfl

/-- Starting with no retained ignorable-only reply, the one retained
after a sequence of merges is the first ignorable-only reply of the
sequence. -/
theorem mergeAll_ignored_none (ms : List (Nat × Reply)) :
    ∀ m : ReplyMerger, m._ignored = none →
      (m.mergeAll ms)._ignored =
        (ms.find? (fun p => p.2.isIgnorableOnly)).map Prod.snd := by
  induction ms with
  | nil => intro m h; rw [mergeAll_nil]; simpa using h
  | cons p ps ih =>
    intro m h
    rw [mergeAll_cons]
    cases hig : p.2.isIgnorableOnly with
    | true =>
      have hstep : (m.merge p.1 p.2)._ignored = some p.2 := by
        rw [merge_ignored_field, h, hig]
        simp
      rw [mergeAll_ignored_some ps _ p.2 hstep,
        List.find?_cons_of_pos _ (by simp [hig])]
      rfl
    | false =>
      have hstep : (m.merge p.1 p.2)._ignored = none := by
        rw [merge_ignored_field, hig]
        simpa using h
      rw [ih _ hstep, List.find?_cons_of_neg _ (by simp [hig])]

/-- Finalizing any merger state never yields a Result that is both
successful and carrying a generated reply. -/
theorem mergedReply_not_both (m : ReplyMerger) :
    (m.mergedReply.isSuccessful && m.mergedReply.hasGeneratedReply) = false := by
  unfold ReplyMerger.mergedReply
  split
  · simp [Result.isSuccessful, Result.hasGeneratedReply]
  · split
    · simp [Result.isSuccessful, Result.hasGeneratedReply]
    · simp [ReplyMerger.createEmptyReplyResult, Result.isSuccessful, Result.hasGeneratedReply]

/-- Claim C1: for every merge sequence containing at least one reply
with no errors, the finalized Result is successful, has no generated
reply, and its success index is the index of the first success-bearing
merge call of the sequence, regardless of later successes or
interleaved failures. -/
theorem firstSuccessWins (ms : List (Nat × Reply))
    (hsucc : ms.any (fun p => !p.2.hasErrors) = true) :
    (runMerger ms).mergedReply.isSuccessful = true ∧
      (runMerger ms).mergedReply.hasGeneratedReply = false ∧
      (runMerger ms).mergedReply.getSuccessfulReplyIndex =
        (ms.find? (fun p => !p.2.hasErrors)).map Prod.fst := by
  obtain ⟨hsr, hsi⟩ := mergeAll_success_none ms ReplyMerger.init rfl
  have h1 : (ms.find? (fun p => !p.2.hasErrors)).isSome := by
    rw [List.find?_isSome]
    simpa using List.any_eq_true.mp hsucc
  obtain ⟨p0, hf⟩ := Option.isSome_iff_exists.mp h1
  rw [hf] at hsr hsi
  simp only [Option.map_some'] at hsr
  unfold runMerger ReplyMerger.mergedReply ReplyMerger.successfullyMergedAtLeastOneReply
  rw [hsr]
  simp [Result.isSuccessful, Result.hasGeneratedReply, Result.getSuccessfulReplyIndex, hsi, hf]

/-- Claim C1 witness: a concrete sequence with a failure at index 3 and
successes at indices 7 and 9 finalizes to the success at index 7. -/
theorem firstSuccessWins_witness :
    ((runMerger [(3, subReply), (7, okReply), (9, okReply)]).mergedReply.isSuccessful = true ∧
      (runMerger [(3, subReply), (7, okReply), (9, okReply)]).mergedReply.hasGeneratedReply =
        false ∧
      (runMerger [(3, subReply), (7, okReply), (9, okReply)]).mergedReply.getSuccessfulReplyIndex =
        ([(3, subReply), (7, okReply), (9, okReply)].find?
          (fun p => !p.2.hasErrors)).map Prod.fst) ∧
    (runMerger [(3, subReply), (7, okReply), (9, okReply)]).mergedReply.getSuccessfulReplyIndex =
      some 7 :=
  ⟨firstSuccessWins [(3, subReply), (7, okReply), (9, okReply)] (by decide), by decide⟩

/-- Claim C2: for every merge sequence with zero successes and at least
one substantive-bearing reply, the finalized Result is unsuccessful,
has a generated reply, and the generated reply's error list is exactly
the concatenation, in call order, of the complete error lists of every
substantive-bearing reply of the sequence. -/
theorem aggregatedSubstantiveErrors (ms : List (Nat × Reply))
    (hallerr : ∀ p ∈ ms, p.2.hasErrors = true)
    (hsub : ms.any (fun p => p.2.isSubstantiveBearing) = true) :
    (runMerger ms).mergedReply.isSuccessful = false ∧
      (runMerger ms).mergedReply.hasGeneratedReply = true ∧
      (runMerger ms).mergedReply._generatedReply.map Reply.errors =
        some (substantiveErrorConcat ms) := by
  have hfindnone : ms.find? (fun p => !p.2.hasErrors) = none := by
    rw [List.find?_eq_none]
    intro p hp
    simp [hallerr p hp]
  obtain ⟨hsr, _⟩ := mergeAll_success_none ms ReplyMerger.init rfl
  rw [hfindnone] at hsr
  simp only [Option.map_none'] at hsr
  have hiss : (ReplyMerger.init.mergeAll ms)._error.isSome = true := by
    rw [mergeAll_error_isSome]
    simp [hsub, ReplyMerger.init]
  obtain ⟨agg, hagg⟩ := Option.isSome_iff_exists.mp hiss
  have herrs : agg.errors = substantiveErrorConcat ms := by
    have hopt := mergeAll_optErrors ms ReplyMerger.init
    rw [hagg] at hopt
    simpa [optErrors, ReplyMerger.init] using hopt
  unfold runMerger ReplyMerger.mergedReply ReplyMerger.successfullyMergedAtLeastOneReply
    ReplyMerger.shouldReturnErrorReply ReplyMerger.releaseGeneratedErrorReply
  rw [hsr, hagg]
  simp [Result.isSuccessful, Result.hasGeneratedReply, herrs]

/-- Claim C2 witness: an ignorable-only reply at index 0 and two
substantive-bearing replies at indices 1 and 2 finalize to a generated
reply whose error list concatenates exactly the two substantive-bearing
replies' full error lists. -/
theorem aggregatedSubstantiveErrors_witness :
    ((runMerger [(0, ignReply), (1, subReply), (2, subReply)]).mergedReply.isSuccessful =
        false ∧
      (runMerger [(0, ignReply), (1, subReply), (2, subReply)]).mergedReply.hasGeneratedReply =
        true ∧
      (runMerger
          [(0, ignReply), (1, subReply), (2, subReply)]).mergedReply._generatedReply.map
          Reply.errors =
        some (substantiveErrorConcat [(0, ignReply), (1, subReply), (2, subReply)])) ∧
    substantiveErrorConcat [(0, ignReply), (1, subReply), (2, subReply)] =
      [subError, ignError, subError, ignError] :=
  ⟨aggregatedSubstantiveErrors [(0, ignReply), (1, subReply), (2, subReply)] (by decide)
      (by decide),
    by decide⟩

/-- Claim C3: for every merge sequence with zero successes, zero
substantive-bearing replies, and at least one ignorable-only reply, the
finalized Result is unsuccessful, has a generated reply, and the
generated reply is a clone of the first ignorable-only reply of the
sequence. -/
theorem firstIgnorableOnlyRetained (ms : List (Nat × Reply))
    (hallerr : ∀ p ∈ ms, p.2.hasErrors = true)
    (hnosub : ∀ p ∈ ms, p.2.isSubstantiveBearing = false)
    (hign : ms.any (fun p => p.2.isIgnorableOnly) = true) :
    (runMerger ms).mergedReply.isSuccessful = false ∧
      (runMerger ms).mergedReply.hasGeneratedReply = true ∧
      (runMerger ms).mergedReply._generatedReply =
        (ms.find? (fun p => p.2.isIgnorableOnly)).map Prod.snd := by
  have hfindnone : ms.find? (fun p => !p.2.hasErrors) = none := by
    rw [List.find?_eq_none]
    intro p hp
    simp [hallerr p hp]
  obtain ⟨hsr, _⟩ := mergeAll_success_none ms ReplyMerger.init rfl
  rw [hfindnone] at hsr
  simp only [Option.map_none'] at hsr
  have herrnone : (ReplyMerger.init.mergeAll ms)._error.isSome = false := by
    rw [mergeAll_error_isSome]
    have hany : ms.any (fun p => p.2.isSubstantiveBearing) = false := by
      rw [List.any_eq_false]
      intro p hp
      simp [hnosub p hp]
    simp [hany, ReplyMerger.init]
  have herr : (ReplyMerger.init.mergeAll ms)._error = none := by
    cases he2 : (ReplyMerger.init.mergeAll ms)._error
    · rfl
    · rw [he2] at herrnone
      simp at herrnone
  have hignfold := mergeAll_ignored_none ms ReplyMerger.init rfl
  have h1 : (ms.find? (fun p => p.2.isIgnorableOnly)).isSome := by
    rw [List.find?_isSome]
    simpa using List.any_eq_true.mp hign
  obtain ⟨q, hq⟩ := Option.isSome_iff_exists.mp h1
  rw [hq] at hignfold
  simp only [Option.map_some'] at hignfold
  unfold runMerger ReplyMerger.mergedReply ReplyMerger.successfullyMergedAtLeastOneReply
    ReplyMerger.shouldReturnErrorReply ReplyMerger.releaseGeneratedErrorReply
  rw [hsr, herr, hignfold]
  simp [Result.isSuccessful, Result.hasGeneratedReply, hq]

/-- Claim C3 witness: two ignorable-only replies at indices 4 and 5
finalize to a generated reply equal to the first of them. -/
theorem firstIgnorableOnlyRetained_witness :
    ((runMerger [(4, ignReply), (5, ignReply2)]).mergedReply.isSuccessful = false ∧
      (runMerger [(4, ignReply), (5, ignReply2)]).mergedReply.hasGeneratedReply = true ∧
      (runMerger [(4, ignReply), (5, ignReply2)]).mergedReply._generatedReply =
        ([(4, ignReply), (5, ignReply2)].find?
          (fun p => p.2.isIgnorableOnly)).map Prod.snd) ∧
    (runMerger [(4, ignReply), (5, ignReply2)]).mergedReply._generatedReply = some ignReply :=
  ⟨firstIgnorableOnlyRetained [(4, ignReply), (5, ignReply2)] (by decide) (by decide)
      (by decide),
    by decide⟩

/-- Claim C4: finalizing a merger on which merge was never called gives
a Result that is neither successful nor carrying a generated reply, the
neutral third state. -/
theorem emptySequenceNeutralResult :
    (runMerger []).mergedReply.isSuccessful = false ∧
      (runMerger []).mergedReply.hasGeneratedReply = false ∧
      (runMerger []).mergedReply = ReplyMerger.init.createEmptyReplyResult := by
  decide

/-- Claim C5: no finalized Result is ever both successful and carrying
a generated reply, for any merge sequence. -/
theorem mergedReplyNeverBothSuccessfulAndGenerated (ms : List (Nat × Reply)) :
    ((runMerger ms).mergedReply.isSuccessful &&
      (runMerger ms).mergedReply.hasGeneratedReply) = false :=
  mergedReply_not_both (runMerger ms)

/-- Claim C6 counterexample: after merging a successful reply the
merger state's `_successReply` field holds the reply itself (the
header's non-owning pointer), not merely the index, refuting the claim
that only the index is retained. -/
theorem mergeRetainsOnlyIndex_counterexample :
    (ReplyMerger.init.merge 0 { errors := [], payload := 7 })._successReply =
        some { errors := [], payload := 7 } ∧
      ¬(ReplyMerger.init.merge 0 { errors := [], payload := 7 })._successReply = none := by
  decide

/-- Claim C6 as amended: a successful merge into a merger with no
recorded success leaves the passed-in reply unchanged and updates
exactly the two success fields, recording the index in `_successIndex`
and a non-owning reference to the reply in `_successReply`; nothing
else of the reply is taken and the error fields are untouched. -/
theorem mergeRecordsIndexAndReference (m : ReplyMerger) (idx : Nat) (r : Reply)
    (hok : r.hasErrors = false) (hnone : m._successReply = none) :
    m.merge idx r = { m with _successReply := some r, _successIndex := idx } :=
  merge_ok_records m idx r hok hnone

/-- Claim C6 witness: merging the sample successful reply at index 4
into a fresh merger records exactly that index and that reference. -/
theorem mergeRecordsIndexAndReference_witness :
    okReply.hasErrors = false ∧
      ReplyMerger.init.merge 4 okReply =
        { ReplyMerger.init with _successReply := some okReply, _successIndex := 4 } :=
  ⟨by decide, mergeRecordsIndexAndReference ReplyMerger.init 4 okReply (by decide) rfl⟩

/-- Claim C7: releasing the generated reply of a Result that has none,
or querying the success index of an unsuccessful Result, is a contract
violation that fails loudly (the assertion failure modelled as `none`)
instead of returning a value. -/
theorem contractViolationsFailLoudly (res : Result) :
    (res.hasGeneratedReply = false → res.releaseGeneratedReply = none) ∧
      (res.isSuccessful = false → res.getSuccessfulReplyIndex = none) := by
  refine ⟨fun h => ?_, fun h => ?_⟩
  · cases hg : res._generatedReply with
    | none => simp [Result.releaseGeneratedReply, hg]
    | some r => simp [Result.hasGeneratedReply, hg] at h
  · cases hs : res._successIdx with
    | none => simp [Result.getSuccessfulReplyIndex, hs]
    | some i => simp [Result.isSuccessful, hs] at h

/-- Claim C7 witness: both contract violations fail loudly on the
neutral Result. -/
theorem contractViolationsFailLoudly_witness :
    (Result.mk none none).releaseGeneratedReply = none ∧
      (Result.mk none none).getSuccessfulReplyIndex = none :=
  ⟨(contractViolationsFailLoudly (Result.mk none none)).1 rfl,
    (contractViolationsFailLoudly (Result.mk none none)).2 rfl⟩

/-- Claim C8: the merge and finalize process is deterministic: two
Results obtained from the same call sequence agree on success flag,
generated-reply flag, success index and generated error list. -/
theorem mergeIsDeterministic (ms : List (Nat × Reply)) (r1 r2 : Result)
    (h1 : r1 = (runMerger ms).mergedReply) (h2 : r2 = (runMerger ms).mergedReply) :
    r1.isSuccessful = r2.isSuccessful ∧
      r1.hasGeneratedReply = r2.hasGeneratedReply ∧
      r1.getSuccessfulReplyIndex = r2.getSuccessfulReplyIndex ∧
      r1._generatedReply.map Reply.errors = r2._generatedReply.map Reply.errors := by
  subst h1
  subst h2
  exact ⟨rfl, rfl, rfl, rfl⟩

/-- Claim C8 witness: two runs over the same one-call sequence agree on
every observable of the Result. -/
theorem mergeIsDeterministic_witness :
    (runMerger [(1, okReply)]).mergedReply.isSuccessful =
        (runMerger [(1, okReply)]).mergedReply.isSuccessful ∧
      (runMerger [(1, okReply)]).mergedReply.hasGeneratedReply =
        (runMerger [(1, okReply)]).mergedReply.hasGeneratedReply ∧
      (runMerger [(1, okReply)]).mergedReply.getSuccessfulReplyIndex =
        (runMerger [(1, okReply)]).mergedReply.getSuccessfulReplyIndex ∧
      (runMerger [(1, okReply)]).mergedReply._generatedReply.map Reply.errors =
        (runMerger [(1, okReply)]).mergedReply._generatedReply.map Reply.errors :=
  mergeIsDeterministic [(1, okReply)] ((runMerger [(1, okReply)]).mergedReply)
    ((runMerger [(1, okReply)]).mergedReply) rfl rfl

/-- Claim C9: releasing the generated reply of a Result that owns one
hands that reply out and leaves the owning pointer null, so the
post-release Result answers false to `hasGeneratedReply`. -/
theorem releaseTransfersOwnershipAndClears (res : Result) (r : Reply)
    (h : res._generatedReply = some r) :
    res.hasGeneratedReply = true ∧
      res.releaseGeneratedReply =
        some (r, { _generatedReply := none, _successIdx := res._successIdx }) ∧
      (Result.mk none res._successIdx).hasGeneratedReply = false := by
  refine ⟨by simp [Result.hasGeneratedReply, h], ?_, by simp [Result.hasGeneratedReply]⟩
  simp [Result.releaseGeneratedReply, h]

/-- Claim C9 witness: releasing from a Result owning the sample
substantive reply returns it and clears the owning field. -/
theorem releaseTransfersOwnershipAndClears_witness :
    (Result.mk (some subReply) none).hasGeneratedReply = true ∧
      (Result.mk (some subReply) none).releaseGeneratedReply =
        some (subReply, { _generatedReply := none, _successIdx := none }) ∧
      (Result.mk none (none : Option Nat)).hasGeneratedReply = false :=
  releaseTransfersOwnershipAndClears (Result.mk (some subReply) none) subReply rfl

/-- Claim C10: every Result client code can hold — one produced by
`mergedReply()` after some merge sequence, or move-constructed from
such a value (Result's value constructor being private to the friend
`ReplyMerger`) — satisfies the invariant of never being both successful
and carrying a generated reply. -/
theorem producedResultInvariant (res : Result) (h : Result.Produced res) :
    (res.isSuccessful && res.hasGeneratedReply) = false := by
  induction h with
  | ofMergedReply ms => exact mergedReply_not_both (runMerger ms)
  | ofMoveTarget r hp ih =>
    simpa [Result.move, Result.isSuccessful, Result.hasGeneratedReply] using ih
  | ofMoveSource r hp ih =>
    simp [Result.move, Result.isSuccessful, Result.hasGeneratedReply]

/-- Claim C10 witness: the Result produced from the one-call sequence
with a substantive reply satisfies the invariant. -/
theorem producedResultInvariant_witness :
    ((runMerger [(0, subReply)]).mergedReply.isSuccessful &&
      (runMerger [(0, subReply)]).mergedReply.hasGeneratedReply) = false :=
  producedResultInvariant ((runMerger [(0, subReply)]).mergedReply)
    (Result.Produced.ofMergedReply [(0, subReply)])

end Documentapi
